import Mathlib

/-!
# Verification of the HyperTube backend core logic

Shallow embedding, over exact rationals and integers, of:

* `FilmService.compute_torrent_can_watch` (readiness predictor),
* the per-film step of `FilmService.refresh_downloading_films`
  (batched progress reconciler),
* the status logic of `DownloadService.update_progress`
  (single-download reconciler),
* `_safe_path`, the subtitle/audio track listing of `get_file_info`,
  and `_probe_keyframe_time` from the streaming routes.

Python floats are modelled as exact rationals, Python ints as `Int`,
`None`-able values as `Option`, and raised `HTTPException`s as
`Except` errors.  External effects (the qBittorrent listing, the
filesystem, the ffprobe process) are passed in as explicit function
arguments.
-/

/-- Python `int(x)` truncation toward zero, on a rational. -/
def pyInt (x : ℚ) : ℤ := if x < 0 then ⌈x⌉ else ⌊x⌋

/-- Module constant `SPEED_SAFETY_FACTOR = 0.90` from `film_service.py`. -/
def SPEED_SAFETY_FACTOR : ℚ := 9 / 10

/-- Module constant `BUFFER_MARGIN = 0.02` from `film_service.py`. -/
def BUFFER_MARGIN : ℚ := 2 / 100

namespace FilmService

/-- `FilmService.compute_torrent_can_watch(status, progress, download_speed,
total_bytes, duration)` from `film_service.py`.

Returns `(can_watch, ready_in_seconds)`.  `progress or 0` and
`download_speed or 0` are identities on `ℚ`/`ℤ` (falsy `0.0`/`0` map to
`0`), so they are elided.  `not dur` (falsy `None` or `0`) is covered by
`duration = none ∨ dur ≤ 0`. -/
def compute_torrent_can_watch (status : String) (progress : ℚ)
    (download_speed : ℤ) (total_bytes : ℤ) (duration : Option ℤ) :
    Bool × Option ℤ :=
  if status = "completed" then (true, some 0)
  else if status = "error" ∨ status = "paused" then (false, none)
  else
    -- downloading
    let progress_frac : ℚ := progress / 100
    if progress_frac ≥ 99 / 100 then (true, some 0)
    else
      let dlspeed : ℤ := download_speed
      let total : ℤ := total_bytes
      let dur : ℤ := duration.getD 0
      if duration = none ∨ dur ≤ 0 ∨ total ≤ 0 then
        (decide (progress_frac ≥ 95 / 100), none)
      else
        let effective_speed : ℚ := (dlspeed : ℚ) * SPEED_SAFETY_FACTOR
        let bitrate : ℚ := (total : ℚ) / (dur : ℚ)
        if effective_speed ≥ bitrate ∧ progress_frac > 1 / 100 then (true, some 0)
        else
          let min_p : ℚ :=
            max 0 (1 - effective_speed * (dur : ℚ) / (total : ℚ)) + BUFFER_MARGIN
          if progress_frac ≥ min_p then (true, some 0)
          else if dlspeed ≤ 0 then (false, none)
          else
            let deficit_bytes : ℚ := (min_p - progress_frac) * (total : ℚ)
            (false, some (pyInt (deficit_bytes / (dlspeed : ℚ)) + 1))

end FilmService

/-- `pyInt` agrees with the floor on nonnegative rationals. -/
theorem pyInt_nonneg {x : ℚ} (hx : 0 ≤ x) : 0 ≤ pyInt x := by
  unfold pyInt
  rw [if_neg (not_lt.mpr hx)]
  exact Int.floor_nonneg.mpr hx

/-- Sanity check: the spec §8 boundary scenario (rule 3 fires before speed). -/
example :
    FilmService.compute_torrent_can_watch "downloading" 99 0 1000000000 (some 7200) =
      (true, some 0) := by
  unfold FilmService.compute_torrent_can_watch
  norm_num
  decide

/-- Sanity check: the spec §8 rule-6 scenario. -/
example :
    FilmService.compute_torrent_can_watch "downloading" 5 2000000 3600000000 (some 3600) =
      (true, some 0) := by
  unfold FilmService.compute_torrent_can_watch
  norm_num [SPEED_SAFETY_FACTOR, BUFFER_MARGIN]
  decide

/-- **C1** (counterexample). On the spec's concrete scenario
(status=Downloading, duration=3600 s, totalBytes=3 600 000 000,
downloadSpeed=500 000 B/s, progress=10 %), the code does *not* return
`readyIn = 6768`: the deficit is `(0.57 − 0.10) · 3 600 000 000 =
1 692 000 000` bytes, not the spec's `3 384 000 000`. -/
theorem compute_can_watch_scenario_not_6768 :
    FilmService.compute_torrent_can_watch "downloading" 10 500000 3600000000 (some 3600) ≠
      ((false : Bool), some (6768 : ℤ)) := by
  unfold FilmService.compute_torrent_can_watch
  norm_num [SPEED_SAFETY_FACTOR, BUFFER_MARGIN, pyInt]
  decide

/-- **C1** (amended). On the spec's concrete scenario the predictor returns
`canWatch = false` and `readyInSeconds = 3385`: the byte deficit is
`(0.57 − 0.10) · 3 600 000 000 = 1 692 000 000`, its quotient by the speed
is exactly `3384`, and the code computes `int(deficit/speed) + 1 = 3385`
(truncation plus one, not a ceiling). -/
theorem compute_can_watch_scenario_value :
    FilmService.compute_torrent_can_watch "downloading" 10 500000 3600000000 (some 3600) =
      ((false : Bool), some (3385 : ℤ)) := by
  unfold FilmService.compute_torrent_can_watch
  norm_num [SPEED_SAFETY_FACTOR, BUFFER_MARGIN, pyInt]
  decide

/-- **C6**. `status = "completed"` yields `(true, 0)` and
`status ∈ {"error", "paused"}` yields `(false, null)`, for every combination
of the remaining input fields: the status tests come first in the code. -/
theorem compute_can_watch_terminal_statuses (p : ℚ) (sp tb : ℤ) (d : Option ℤ) :
    FilmService.compute_torrent_can_watch "completed" p sp tb d = (true, some 0) ∧
    FilmService.compute_torrent_can_watch "error" p sp tb d = (false, none) ∧
    FilmService.compute_torrent_can_watch "paused" p sp tb d = (false, none) := by
  refine ⟨?_, ?_, ?_⟩ <;> simp [FilmService.compute_torrent_can_watch]

/-- **C9** (counterexample). The readiness predictor can return the pair
`(canWatch = true, readyIn = null)`, a shape outside the claimed list
{(true,0), (false,null), (false,n>0)}: with unknown duration and size and
96 % progress, the fallback branch returns `(p ≥ 0.95, None) = (true, None)`. -/
theorem compute_can_watch_true_null_shape :
    FilmService.compute_torrent_can_watch "downloading" 96 0 0 none = (true, none) ∧
    (none : Option ℤ) ≠ some 0 := by
  constructor
  · unfold FilmService.compute_torrent_can_watch
    norm_num
    decide
  · decide

/-- **C9** (amended). For every input the returned pair is one of
`(true, 0)`, `(true, null)` (only the unknown-duration/size fallback with
`p ≥ 0.95` produces this), `(false, null)`, or `(false, n)` with `n > 0`;
in particular `canWatch = false` never comes with `readyIn = 0`. -/
theorem compute_can_watch_result_shapes (status : String) (p : ℚ) (sp tb : ℤ)
    (d : Option ℤ) :
    FilmService.compute_torrent_can_watch status p sp tb d = (true, some 0) ∨
    FilmService.compute_torrent_can_watch status p sp tb d = (true, none) ∨
    FilmService.compute_torrent_can_watch status p sp tb d = (false, none) ∨
    ∃ n : ℤ, 0 < n ∧
      FilmService.compute_torrent_can_watch status p sp tb d = (false, some n) := by
  unfold FilmService.compute_torrent_can_watch
  dsimp only
  split_ifs with h1 h2 h3 h4 h5 h6 h7
  · exact Or.inl rfl
  · exact Or.inr (Or.inr (Or.inl rfl))
  · exact Or.inl rfl
  · by_cases hp : p / 100 ≥ 95 / 100
    · simp [hp]
    · simp [hp]
  · exact Or.inl rfl
  · exact Or.inl rfl
  · exact Or.inr (Or.inr (Or.inl rfl))
  · refine Or.inr (Or.inr (Or.inr ⟨_, ?_, rfl⟩))
    push_neg at h4 h6 h7
    have htot : (0 : ℚ) < (tb : ℚ) := by exact_mod_cast h4.2.2
    have hsp : (0 : ℚ) < (sp : ℚ) := by exact_mod_cast h7
    have hdef : (0 : ℚ) ≤
        (max 0 (1 - (sp : ℚ) * SPEED_SAFETY_FACTOR * ((d.getD 0 : ℤ) : ℚ) / (tb : ℚ)) +
          BUFFER_MARGIN - p / 100) * (tb : ℚ) := by
      have hlt : p / 100 <
          max 0 (1 - (sp : ℚ) * SPEED_SAFETY_FACTOR * ((d.getD 0 : ℤ) : ℚ) / (tb : ℚ)) +
            BUFFER_MARGIN := h6
      nlinarith
    have := pyInt_nonneg (div_nonneg hdef hsp.le)
    omega

/-- Characterization of a `canWatch = true` verdict of
`compute_torrent_can_watch` for a non-terminal status, used to prove
monotonicity in progress. -/
theorem compute_can_watch_true_iff (status : String) (p : ℚ) (sp tb : ℤ)
    (d : Option ℤ) (hs1 : ¬status = "completed") (hs2 : ¬status = "error")
    (hs3 : ¬status = "paused") :
    (FilmService.compute_torrent_can_watch status p sp tb d).1 = true ↔
      (p / 100 ≥ 99 / 100 ∨
        ((d = none ∨ d.getD 0 ≤ 0 ∨ tb ≤ 0) ∧ p / 100 ≥ 95 / 100) ∨
        (¬(d = none ∨ d.getD 0 ≤ 0 ∨ tb ≤ 0) ∧
          (((sp : ℚ) * SPEED_SAFETY_FACTOR ≥ (tb : ℚ) / ((d.getD 0 : ℤ) : ℚ) ∧
              p / 100 > 1 / 100) ∨
            p / 100 ≥
              max 0
                  (1 - (sp : ℚ) * SPEED_SAFETY_FACTOR * ((d.getD 0 : ℤ) : ℚ) / (tb : ℚ)) +
                BUFFER_MARGIN))) := by
  unfold FilmService.compute_torrent_can_watch
  dsimp only
  rw [if_neg hs1, if_neg (by tauto)]
  split_ifs with hc hD h6 hm hsp
  · simp [hc]
  · simp [hc, hD, decide_eq_true_eq]
  · simp [hc, hD, h6]
    exact Or.inl (by linarith [h6.2])
  · simp [hc, hD, h6, hm]
  · simp [hc, hD, h6, hm]
    intro hA
    by_contra hB
    push_neg at hB
    exact h6 ⟨hA, by linarith⟩
  · simp [hc, hD, h6, hm]
    intro hA
    by_contra hB
    push_neg at hB
    exact h6 ⟨hA, by linarith⟩

/-- **C4**. Monotonicity in progress: with status, speed, size and duration
fixed and `0 ≤ p1 ≤ p2 ≤ 100`, if the predictor answers `canWatch = true`
at `p1` then it also answers `canWatch = true` at `p2`. -/
theorem compute_can_watch_monotone_in_progress (status : String) (sp tb : ℤ)
    (d : Option ℤ) (p1 p2 : ℚ) (h0 : 0 ≤ p1) (h12 : p1 ≤ p2) (h100 : p2 ≤ 100)
    (h : (FilmService.compute_torrent_can_watch status p1 sp tb d).1 = true) :
    (FilmService.compute_torrent_can_watch status p2 sp tb d).1 = true := by
  by_cases hs1 : status = "completed"
  · subst hs1; simp [FilmService.compute_torrent_can_watch]
  by_cases hs2 : status = "error"
  · subst hs2; simp [FilmService.compute_torrent_can_watch] at h
  by_cases hs3 : status = "paused"
  · subst hs3; simp [FilmService.compute_torrent_can_watch] at h
  rw [compute_can_watch_true_iff status p1 sp tb d hs1 hs2 hs3] at h
  rw [compute_can_watch_true_iff status p2 sp tb d hs1 hs2 hs3]
  rcases h with h | ⟨hD, h95⟩ | ⟨hD, h6 | hm⟩
  · exact Or.inl (by linarith)
  · exact Or.inr (Or.inl ⟨hD, by linarith⟩)
  · exact Or.inr (Or.inr ⟨hD, Or.inl ⟨h6.1, by linarith [h6.2]⟩⟩)
  · exact Or.inr (Or.inr ⟨hD, Or.inr (by linarith)⟩)

/-- **C4** (witness). At progress 60 % the spec-§8 slow-download file is
watchable (p = 0.60 ≥ minP = 0.57), hence by monotonicity so is 70 %. -/
theorem compute_can_watch_monotone_witness :
    (FilmService.compute_torrent_can_watch "downloading" 70 500000 3600000000
      (some 3600)).1 = true :=
  compute_can_watch_monotone_in_progress "downloading" 500000 3600000000
    (some 3600) 60 70 (by norm_num) (by norm_num) (by norm_num)
    (by unfold FilmService.compute_torrent_can_watch
        norm_num [SPEED_SAFETY_FACTOR, BUFFER_MARGIN]
        decide)

/-! ## Progress reconciler

`DownloadService.update_progress` (single download) and the per-film step
of `FilmService.refresh_downloading_films` (batched refresh), from
`download_service.py` and `film_service.py`.
-/

/-- The `DownloadStatus` enum from `models/download.py`. -/
inductive DownloadStatus where
  | downloading
  | paused
  | completed
  | error
deriving DecidableEq, Repr

/-- One qBittorrent torrent entry as consumed by the reconcilers: the
fields read out of the engine's JSON dict (`state`, `downloaded`, `size`,
`progress`, `dlspeed`, `eta`). -/
structure QbtTorrent where
  state : String
  downloaded : ℤ
  size : ℤ
  progress : ℚ
  dlspeed : ℤ
  eta : Option ℤ
deriving DecidableEq, Repr

/-- The mutable fields of a `Download` row touched by
`DownloadService.update_progress`. -/
structure DownloadRec where
  status : DownloadStatus
  progress : ℚ
  downloadedBytes : ℤ
  totalBytes : ℤ
deriving DecidableEq, Repr

namespace DownloadService

/-- `COMPLETED_STATES` of `DownloadService.update_progress`. -/
def COMPLETED_STATES : List String :=
  ["uploading", "forcedUP", "stalledUP", "queuedUP", "checkingUP"]

/-- `DOWNLOADING_STATES` of `DownloadService.update_progress`. -/
def DOWNLOADING_STATES : List String :=
  ["downloading", "forcedDL", "metaDL", "allocating",
   "stalledDL", "queuedDL", "checkingDL", "checkingResumeData", "moving"]

/-- `PAUSED_STATES` of `DownloadService.update_progress`. -/
def PAUSED_STATES : List String := ["pausedDL", "pausedUP"]

/-- `ERROR_STATES` of `DownloadService.update_progress`. -/
def ERROR_STATES : List String := ["error", "missingFiles", "unknown"]

/-- The state/progress reconciliation of `DownloadService.update_progress`:
`progress = none` models an empty engine reply.  On an unknown state the
code keeps a `COMPLETED`/`ERROR` status and falls back to `DOWNLOADING`
otherwise. -/
def update_progress (download : DownloadRec) (progress : Option QbtTorrent) :
    DownloadRec :=
  match progress with
  | none => { download with status := .error }
  | some p =>
    let state := p.state
    let status :=
      if COMPLETED_STATES.contains state then DownloadStatus.completed
      else if DOWNLOADING_STATES.contains state then .downloading
      else if PAUSED_STATES.contains state then .paused
      else if ERROR_STATES.contains state then .error
      else if ¬(download.status = .completed ∨ download.status = .error) then
        .downloading
      else download.status
    let downloadedBytes := p.downloaded
    let totalBytes := p.size
    let prog : ℚ :=
      if totalBytes > 0 then (downloadedBytes : ℚ) / (totalBytes : ℚ) * 100
      else p.progress * 100
    { status := status, progress := prog,
      downloadedBytes := downloadedBytes, totalBytes := totalBytes }

end DownloadService

/-- The progress/status fields of a `Film` row touched by
`FilmService.refresh_downloading_films`. -/
structure FilmState where
  status : String
  progress : ℚ
  downloadedBytes : ℤ
  totalBytes : ℤ
  downloadSpeed : ℤ
  eta : Option ℤ
deriving DecidableEq, Repr

namespace FilmService

/-- `COMPLETED_STATES` of `FilmService.refresh_downloading_films`. -/
def COMPLETED_STATES : List String :=
  ["uploading", "forcedUP", "stalledUP", "queuedUP", "checkingUP",
   "pausedUP", "stoppedUP"]

/-- `PAUSED_STATES` of `FilmService.refresh_downloading_films`. -/
def PAUSED_STATES : List String := ["pausedDL", "stoppedDL"]

/-- `ERROR_STATES` of `FilmService.refresh_downloading_films`. -/
def ERROR_STATES : List String := ["error", "missingFiles", "unknown"]

/-- The state-string classification inside the per-hash loop of
`refresh_downloading_films`: every state not in one of the three sets maps
to `"downloading"`. -/
def map_qbt_state (state : String) : String :=
  if COMPLETED_STATES.contains state then "completed"
  else if PAUSED_STATES.contains state then "paused"
  else if ERROR_STATES.contains state then "error"
  else "downloading"

/-- The `STATUS_RANK` table of `refresh_downloading_films`
(`.get(mapped, 0)` default included). -/
def STATUS_RANK (s : String) : ℕ :=
  if s = "completed" then 4
  else if s = "downloading" then 3
  else if s = "paused" then 2
  else if s = "error" then 1
  else 0

/-- Rank of the current best candidate (`best_rank`, initially `0`). -/
def bestRank : Option (String × QbtTorrent) → ℕ
  | none => 0
  | some (mapped, _) => STATUS_RANK mapped

/-- The best-transfer selection loop of `refresh_downloading_films`:
for each hash found in the engine listing, classify its state and keep the
strictly highest-ranked `(mapped, torrent)` pair. -/
def selectBest (qbt : String → Option QbtTorrent) :
    List String → Option (String × QbtTorrent) → Option (String × QbtTorrent)
  | [], best => best
  | h :: rest, best =>
    match qbt h with
    | none => selectBest qbt rest best
    | some t =>
      let mapped := map_qbt_state t.state
      if STATUS_RANK mapped > bestRank best then
        selectBest qbt rest (some (mapped, t))
      else
        selectBest qbt rest best

/-- The progress recomputed from the selected transfer
(`downloaded/size*100` when `size > 0`, else the engine fraction `* 100`). -/
def recomputedProgress (t : QbtTorrent) : ℚ :=
  if t.size > 0 then (t.downloaded : ℚ) / (t.size : ℚ) * 100
  else t.progress * 100

/-- The per-film body of `refresh_downloading_films` once the engine
listing has been fetched: apply the best transfer's data (with the
`progress ≥ 99.9 → "completed"` override), or — when no hash of the film
is in the listing — mark the film `"error"` if `Download` rows still
reference it (`hasDownloadRows`) and delete it (`none`) otherwise. -/
def refreshFilmStep (film : FilmState) (hashes : List String)
    (qbt : String → Option QbtTorrent) (hasDownloadRows : Bool) :
    Option FilmState :=
  match selectBest qbt hashes none with
  | some (best_mapped, best_t) =>
    let downloadedBytes := best_t.downloaded
    let totalBytes := best_t.size
    let progress : ℚ :=
      if totalBytes > 0 then (downloadedBytes : ℚ) / (totalBytes : ℚ) * 100
      else best_t.progress * 100
    let status := if progress ≥ 999 / 10 then "completed" else best_mapped
    some { status := status, progress := progress,
           downloadedBytes := downloadedBytes, totalBytes := totalBytes,
           downloadSpeed := best_t.dlspeed, eta := best_t.eta }
  | none =>
    if hasDownloadRows then
      some { film with status := "error", downloadSpeed := 0, eta := none }
    else
      none

/-- The selection filter of the refresh query:
`Film.status.in_(["downloading", "paused", "error"])` — completed films
are never part of a refresh batch. -/
def refreshSelects (status : String) : Bool :=
  ["downloading", "paused", "error"].contains status

end FilmService

/-- The running best candidate's rank never decreases along the selection
loop of `refresh_downloading_films`. -/
theorem selectBest_rank_mono (qbt : String → Option QbtTorrent) :
    ∀ (hashes : List String) (acc : Option (String × QbtTorrent)),
      FilmService.bestRank acc ≤
        FilmService.bestRank (FilmService.selectBest qbt hashes acc)
  | [], acc => le_refl _
  | h :: rest, acc => by
    unfold FilmService.selectBest
    cases hq : qbt h with
    | none => exact selectBest_rank_mono qbt rest acc
    | some t =>
      dsimp only
      split_ifs with hr
      · have hm := selectBest_rank_mono qbt rest
          (some (FilmService.map_qbt_state t.state, t))
        simp only [FilmService.bestRank] at hm
        exact le_trans (le_of_lt hr) hm
      · exact selectBest_rank_mono qbt rest acc

/-- Every transfer visible in the listing has rank at most the rank of the
selected best candidate. -/
theorem selectBest_rank_ge (qbt : String → Option QbtTorrent) :
    ∀ (hashes : List String) (acc : Option (String × QbtTorrent))
      (h : String) (t : QbtTorrent), h ∈ hashes → qbt h = some t →
      FilmService.STATUS_RANK (FilmService.map_qbt_state t.state) ≤
        FilmService.bestRank (FilmService.selectBest qbt hashes acc)
  | [], _, _, _, hmem, _ => absurd hmem (List.not_mem_nil _)
  | h' :: rest, acc, h, t, hmem, hq => by
    unfold FilmService.selectBest
    rcases List.mem_cons.mp hmem with heq | hmem'
    · subst heq
      rw [hq]
      dsimp only
      split_ifs with hr
      · have hm := selectBest_rank_mono qbt rest
          (some (FilmService.map_qbt_state t.state, t))
        simp only [FilmService.bestRank] at hm
        exact hm
      · exact le_trans (not_lt.mp hr) (selectBest_rank_mono qbt rest acc)
    · cases hq' : qbt h' with
      | none => exact selectBest_rank_ge qbt rest acc h t hmem' hq
      | some t' =>
        dsimp only
        split_ifs with hr
        · exact selectBest_rank_ge qbt rest _ h t hmem' hq
        · exact selectBest_rank_ge qbt rest acc h t hmem' hq

/-- The selected best candidate is either the initial accumulator or an
actual transfer from the listing, paired with its classified state. -/
theorem selectBest_some_src (qbt : String → Option QbtTorrent) :
    ∀ (hashes : List String) (acc : Option (String × QbtTorrent))
      (m : String) (t : QbtTorrent),
      FilmService.selectBest qbt hashes acc = some (m, t) →
      acc = some (m, t) ∨
        ∃ h ∈ hashes, qbt h = some t ∧ FilmService.map_qbt_state t.state = m
  | [], acc, m, t, hsel => Or.inl hsel
  | h' :: rest, acc, m, t, hsel => by
    unfold FilmService.selectBest at hsel
    cases hq' : qbt h' with
    | none =>
      rw [hq'] at hsel
      rcases selectBest_some_src qbt rest acc m t hsel with h | ⟨h, hmem, hq, hm⟩
      · exact Or.inl h
      · exact Or.inr ⟨h, List.mem_cons_of_mem _ hmem, hq, hm⟩
    | some t' =>
      rw [hq'] at hsel
      dsimp only at hsel
      split_ifs at hsel with hr
      · rcases selectBest_some_src qbt rest _ m t hsel with h | ⟨h, hmem, hq, hm⟩
        · simp only [Option.some.injEq, Prod.mk.injEq] at h
          exact Or.inr ⟨h', List.mem_cons_self _ _, h.2 ▸ hq', h.2 ▸ h.1⟩
        · exact Or.inr ⟨h, List.mem_cons_of_mem _ hmem, hq, hm⟩
      · rcases selectBest_some_src qbt rest acc m t hsel with h | ⟨h, hmem, hq, hm⟩
        · exact Or.inl h
        · exact Or.inr ⟨h, List.mem_cons_of_mem _ hmem, hq, hm⟩

/-- **C10**. Whenever the batched refresh selects a best transfer for a
film and the recomputed progress is at least 99.9 %, the film's status is
set to `"completed"`, regardless of the classified state of that transfer. -/
theorem refresh_progress_override (film : FilmState) (hashes : List String)
    (qbt : String → Option QbtTorrent) (dl : Bool) (m : String) (t : QbtTorrent)
    (hsel : FilmService.selectBest qbt hashes none = some (m, t))
    (hprog : FilmService.recomputedProgress t ≥ 999 / 10) :
    (FilmService.refreshFilmStep film hashes qbt dl).map FilmState.status =
      some "completed" := by
  unfold FilmService.refreshFilmStep
  rw [hsel]
  dsimp only
  rw [if_pos (by simpa [FilmService.recomputedProgress] using hprog)]
  rfl

/-- **C10** (witness). A single transfer in the (downloading-classified)
state `"stalledDL"` with 999 of 1000 bytes (99.9 %) yields `"completed"`. -/
theorem refresh_progress_override_witness :
    (FilmService.refreshFilmStep
        ⟨"downloading", 0, 0, 0, 0, none⟩ ["a"]
        (fun h => if h = "a" then
            some ⟨"stalledDL", 999, 1000, 0, 0, none⟩
          else none)
        true).map FilmState.status = some "completed" :=
  refresh_progress_override ⟨"downloading", 0, 0, 0, 0, none⟩ ["a"]
    (fun h => if h = "a" then some ⟨"stalledDL", 999, 1000, 0, 0, none⟩ else none)
    true "downloading" ⟨"stalledDL", 999, 1000, 0, 0, none⟩
    (by rfl)
    (by norm_num [FilmService.recomputedProgress])

/-- **C5** (counterexample). The refresh step does *not* always assign the
status of the highest-ranked transfer: two transfers both classified
`"downloading"`, the best one at 99.95 % recomputed progress, produce the
film status `"completed"` (the ≥ 99.9 % override), not `"downloading"`. -/
theorem refresh_best_status_not_always_assigned :
    FilmService.selectBest
        (fun h => if h = "a" then some ⟨"downloading", 9995, 10000, 0, 0, none⟩
          else if h = "b" then some ⟨"downloading", 0, 10000, 0, 0, none⟩
          else none)
        ["a", "b"] none =
      some ("downloading", ⟨"downloading", 9995, 10000, 0, 0, none⟩) ∧
    (FilmService.refreshFilmStep ⟨"downloading", 0, 0, 0, 0, none⟩ ["a", "b"]
        (fun h => if h = "a" then some ⟨"downloading", 9995, 10000, 0, 0, none⟩
          else if h = "b" then some ⟨"downloading", 0, 10000, 0, 0, none⟩
          else none)
        true).map FilmState.status = some "completed" ∧
    ("completed" : String) ≠ "downloading" := by
  refine ⟨by rfl, ?_, by decide⟩
  have hsel : FilmService.selectBest
      (fun h => if h = "a" then some ⟨"downloading", 9995, 10000, 0, 0, none⟩
        else if h = "b" then some ⟨"downloading", 0, 10000, 0, 0, none⟩
        else none)
      ["a", "b"] none =
      some ("downloading", ⟨"downloading", 9995, 10000, 0, 0, none⟩) := by rfl
  unfold FilmService.refreshFilmStep
  rw [hsel]
  dsimp only
  rw [if_pos (by norm_num)]
  rfl

/-- **C5** (amended). When the batched refresh finds a best transfer whose
recomputed progress is below 99.9 %, the film receives exactly the
classified status of that transfer, and that status's rank is maximal
among all transfers of the film visible in the listing; moreover — with
or without the progress override — a film with exactly two transfers, one
classified `"completed"` and one classified `"error"`, always reconciles
to `"completed"`. -/
theorem refresh_assigns_best_status :
    (∀ (film : FilmState) (hashes : List String)
        (qbt : String → Option QbtTorrent) (dl : Bool) (m : String)
        (t : QbtTorrent),
        FilmService.selectBest qbt hashes none = some (m, t) →
        FilmService.recomputedProgress t < 999 / 10 →
        (FilmService.refreshFilmStep film hashes qbt dl).map FilmState.status =
            some m ∧
          ∀ (h : String) (u : QbtTorrent), h ∈ hashes → qbt h = some u →
            FilmService.STATUS_RANK (FilmService.map_qbt_state u.state) ≤
              FilmService.STATUS_RANK m) ∧
    (∀ (film : FilmState) (h1 h2 : String) (t1 t2 : QbtTorrent)
        (qbt : String → Option QbtTorrent) (dl : Bool),
        qbt h1 = some t1 → qbt h2 = some t2 →
        FilmService.map_qbt_state t1.state = "completed" →
        FilmService.map_qbt_state t2.state = "error" →
        (FilmService.refreshFilmStep film [h1, h2] qbt dl).map FilmState.status =
          some "completed") := by
  constructor
  · intro film hashes qbt dl m t hsel hprog
    constructor
    · unfold FilmService.refreshFilmStep
      rw [hsel]
      dsimp only
      rw [if_neg (by simpa [FilmService.recomputedProgress] using not_le.mpr hprog)]
      rfl
    · intro h u hmem hq
      have hge := selectBest_rank_ge qbt hashes none h u hmem hq
      rw [hsel] at hge
      simpa [FilmService.bestRank] using hge
  · intro film h1 h2 t1 t2 qbt dl hq1 hq2 hm1 hm2
    have hsel : FilmService.selectBest qbt [h1, h2] none =
        some ("completed", t1) := by
      unfold FilmService.selectBest
      rw [hq1]
      dsimp only
      rw [hm1]
      rw [if_pos (by decide)]
      unfold FilmService.selectBest
      rw [hq2]
      dsimp only
      rw [hm2]
      rw [if_neg (by simp [FilmService.bestRank, FilmService.STATUS_RANK])]
      rfl
    unfold FilmService.refreshFilmStep
    rw [hsel]
    dsimp only
    split_ifs <;> rfl

/-- **C5** (witness). Two transfers, one in the completed-classified state
`"uploading"` at 10 % and one in the error-classified state
`"missingFiles"`, reconcile to `"completed"`. -/
theorem refresh_assigns_best_status_witness :
    (FilmService.refreshFilmStep ⟨"downloading", 0, 0, 0, 0, none⟩ ["a", "b"]
        (fun h => if h = "a" then some ⟨"uploading", 100, 1000, 0, 0, none⟩
          else if h = "b" then some ⟨"missingFiles", 0, 1000, 0, 0, none⟩
          else none)
        true).map FilmState.status = some "completed" :=
  refresh_assigns_best_status.2 ⟨"downloading", 0, 0, 0, 0, none⟩ "a" "b"
    ⟨"uploading", 100, 1000, 0, 0, none⟩ ⟨"missingFiles", 0, 1000, 0, 0, none⟩
    (fun h => if h = "a" then some ⟨"uploading", 100, 1000, 0, 0, none⟩
      else if h = "b" then some ⟨"missingFiles", 0, 1000, 0, 0, none⟩
      else none)
    true (by rfl) (by rfl) (by rfl) (by rfl)

/-- **C3** (counterexample). In the batched refresh path an unclassified
engine state *does* demote a stored `"error"` film to `"downloading"`:
the state `"weirdNewState"` belongs to none of the three classification
sets, maps to `"downloading"`, and overwrites the terminal status. -/
theorem refresh_unknown_state_demotes_error :
    (FilmService.refreshFilmStep ⟨"error", 0, 0, 0, 0, none⟩ ["aaaa"]
        (fun h => if h = "aaaa" then
            some ⟨"weirdNewState", 0, 100, 0, 0, none⟩
          else none)
        true).map FilmState.status = some "downloading" ∧
    FilmService.COMPLETED_STATES.contains "weirdNewState" = false ∧
    FilmService.PAUSED_STATES.contains "weirdNewState" = false ∧
    FilmService.ERROR_STATES.contains "weirdNewState" = false := by
  refine ⟨?_, by decide, by decide, by decide⟩
  have hsel : FilmService.selectBest
      (fun h => if h = "aaaa" then some ⟨"weirdNewState", 0, 100, 0, 0, none⟩
        else none)
      ["aaaa"] none =
      some ("downloading", ⟨"weirdNewState", 0, 100, 0, 0, none⟩) := by rfl
  unfold FilmService.refreshFilmStep
  rw [hsel]
  dsimp only
  rw [if_neg (by norm_num)]
  rfl

/-- **C3** (amended). The single-download reconciler keeps a stored
`Completed`/`Error` status when the engine state is unclassified, and the
batched refresh never even selects a completed film (its query filter
excludes `"completed"`); but — per the counterexample — a stored `"error"`
film in the batched path is not protected. -/
theorem terminal_status_sticky :
    (∀ (download : DownloadRec) (p : QbtTorrent),
        download.status = DownloadStatus.completed ∨
          download.status = DownloadStatus.error →
        p.state ∉ DownloadService.COMPLETED_STATES →
        p.state ∉ DownloadService.DOWNLOADING_STATES →
        p.state ∉ DownloadService.PAUSED_STATES →
        p.state ∉ DownloadService.ERROR_STATES →
        (DownloadService.update_progress download (some p)).status =
          download.status) ∧
    FilmService.refreshSelects "completed" = false := by
  constructor
  · intro download p hterm h1 h2 h3 h4
    unfold DownloadService.update_progress
    dsimp only
    rw [if_neg (by simp [h1]), if_neg (by simp [h2]), if_neg (by simp [h3]),
      if_neg (by simp [h4]), if_neg (by tauto)]
  · decide

/-- **C3** (witness). A completed download observed in the unclassified
state `"weirdNewState"` keeps its `completed` status, and `"completed"`
is outside the refresh query filter. -/
theorem terminal_status_sticky_witness :
    (DownloadService.update_progress ⟨DownloadStatus.completed, 50, 0, 0⟩
        (some ⟨"weirdNewState", 10, 100, 0, 0, none⟩)).status =
      DownloadStatus.completed ∧
    FilmService.refreshSelects "completed" = false :=
  ⟨terminal_status_sticky.1 ⟨DownloadStatus.completed, 50, 0, 0⟩
      ⟨"weirdNewState", 10, 100, 0, 0, none⟩ (Or.inl rfl)
      (by decide) (by decide) (by decide) (by decide),
    terminal_status_sticky.2⟩

/-! ## Streaming routes (`routes/stream.py`) -/

/-- An `HTTPException(status_code, detail)` raised by the routes. -/
structure HTTPException where
  statusCode : ℕ
  detail : String
deriving DecidableEq, Repr

/-- `MEDIA_DIRS` from `routes/stream.py`. -/
def MEDIA_DIRS : List String := ["/downloads", "/downloads/temp", "/default-videos"]

/-- The one exception `_safe_path` can raise:
`HTTPException(404, "File not found")`. -/
def fileNotFound : HTTPException := ⟨404, "File not found"⟩

/-- Python's `str.startswith`, computed on the character lists. -/
def str_startsWith (s pre : String) : Bool :=
  pre.data.isPrefixOf s.data

/-- `os.path.join(base, name)` with `os.sep = "/"`: an absolute `name`
discards `base`. -/
def os_path_join (base name : String) : String :=
  if str_startsWith name "/" then name else base ++ "/" ++ name

/-- The directory loop of `_safe_path`; `realpath` and `isFile` stand for
`os.path.realpath` and `os.path.isfile`.  A directory whose resolved
`filepath` escapes `base` is skipped (`continue`), as is one where the
file does not exist. -/
def safe_path_loop (realpath : String → String) (isFile : String → Bool)
    (filename : String) : List String → Except HTTPException String
  | [] => .error fileNotFound
  | base_dir :: rest =>
    let base := realpath base_dir
    let filepath := realpath (os_path_join base filename)
    if ¬str_startsWith filepath (base ++ "/") ∧ filepath ≠ base then
      safe_path_loop realpath isFile filename rest
    else if isFile filepath then .ok filepath
    else safe_path_loop realpath isFile filename rest

/-- `_safe_path(filename)` from `routes/stream.py`. -/
def safe_path (realpath : String → String) (isFile : String → Bool)
    (filename : String) : Except HTTPException String :=
  safe_path_loop realpath isFile filename MEDIA_DIRS

/-- Any failure of the `_safe_path` loop is the single 404 exception. -/
theorem safe_path_loop_error_eq (realpath : String → String)
    (isFile : String → Bool) (filename : String) :
    ∀ (dirs : List String) (e : HTTPException),
      safe_path_loop realpath isFile filename dirs = .error e →
      e = fileNotFound
  | [], e, h => by
    unfold safe_path_loop at h
    exact (Except.error.injEq _ _ ▸ h).symm
  | base_dir :: rest, e, h => by
    unfold safe_path_loop at h
    dsimp only at h
    split_ifs at h with h1 h2 <;>
      exact safe_path_loop_error_eq realpath isFile filename rest e h

/-- When the file exists nowhere, the `_safe_path` loop fails. -/
theorem safe_path_loop_no_file (realpath : String → String)
    (filename : String) :
    ∀ (dirs : List String),
      safe_path_loop realpath (fun _ => false) filename dirs =
        .error fileNotFound
  | [] => rfl
  | base_dir :: rest => by
    unfold safe_path_loop
    dsimp only
    split_ifs with h1 h2
    · exact safe_path_loop_no_file realpath filename rest
    · exact absurd h2 (by simp)
    · exact safe_path_loop_no_file realpath filename rest

/-- When the resolved path escapes every root, the `_safe_path` loop fails
without ever consulting the filesystem predicate. -/
theorem safe_path_loop_all_escape (realpath : String → String)
    (isFile : String → Bool) (filename : String) :
    ∀ (dirs : List String),
      (∀ d ∈ dirs,
        ¬str_startsWith (realpath (os_path_join (realpath d) filename))
            (realpath d ++ "/") ∧
          realpath (os_path_join (realpath d) filename) ≠ realpath d) →
      safe_path_loop realpath isFile filename dirs = .error fileNotFound
  | [], _ => rfl
  | base_dir :: rest, hesc => by
    unfold safe_path_loop
    dsimp only
    rw [if_pos (hesc base_dir (List.mem_cons_self _ _))]
    exact safe_path_loop_all_escape realpath isFile filename rest
      (fun d hd => hesc d (List.mem_cons_of_mem _ hd))

/-- **C7**. Path resolution of the streaming endpoints: (i) every failure
of `_safe_path` is the same `HTTPException(404, "File not found")` — so a
path-traversal rejection and a missing file are externally
indistinguishable and no permission (403) error exists; (ii) a filename
whose resolution escapes all permitted roots always fails with that 404;
(iii) so does a filename that exists in no root. -/
theorem safe_path_not_found_only (realpath : String → String)
    (isFile : String → Bool) (filename : String) :
    (∀ e : HTTPException,
        safe_path realpath isFile filename = .error e →
        e = fileNotFound ∧ e.statusCode = 404) ∧
    ((∀ d ∈ MEDIA_DIRS,
        ¬str_startsWith (realpath (os_path_join (realpath d) filename))
            (realpath d ++ "/") ∧
          realpath (os_path_join (realpath d) filename) ≠ realpath d) →
      safe_path realpath isFile filename = .error fileNotFound) ∧
    safe_path realpath (fun _ => false) filename = .error fileNotFound := by
  refine ⟨?_, ?_, ?_⟩
  · intro e he
    have h := safe_path_loop_error_eq realpath isFile filename MEDIA_DIRS e he
    exact ⟨h, by rw [h]; rfl⟩
  · intro hesc
    exact safe_path_loop_all_escape realpath isFile filename MEDIA_DIRS hesc
  · exact safe_path_loop_no_file realpath filename MEDIA_DIRS

/-- **C7** (witness). With a `realpath` that resolves `..` segments, the
traversal filename `"../etc/passwd"` escapes every root and yields exactly
the 404; a missing plain filename yields the same 404. -/
theorem safe_path_not_found_only_witness :
    safe_path
        (fun s => if s = "/downloads/../etc/passwd" then "/etc/passwd"
          else if s = "/downloads/temp/../etc/passwd" then "/etc/passwd"
          else if s = "/default-videos/../etc/passwd" then "/etc/passwd"
          else s)
        (fun _ => true) "../etc/passwd" = .error fileNotFound ∧
    safe_path (fun s => s) (fun _ => false) "movie.mkv" =
        .error fileNotFound := by
  constructor
  · exact (safe_path_not_found_only
      (fun s => if s = "/downloads/../etc/passwd" then "/etc/passwd"
        else if s = "/downloads/temp/../etc/passwd" then "/etc/passwd"
        else if s = "/default-videos/../etc/passwd" then "/etc/passwd"
        else s)
      (fun _ => true) "../etc/passwd").2.1 (by decide)
  · exact (safe_path_not_found_only (fun s => s) (fun _ => false)
      "movie.mkv").2.2

/-- The line loop of `_probe_keyframe_time`: the first stripped non-empty
stdout line that parses as a float wins; parse failures are skipped
(`except ValueError: pass`).  `parseFloat` stands for Python's `float()`. -/
def first_parsed_line (parseFloat : String → Option ℚ) :
    List String → Option ℚ
  | [] => none
  | line :: rest =>
    let stripped := line.trim
    if stripped ≠ "" then
      match parseFloat stripped with
      | some v => some v
      | none => first_parsed_line parseFloat rest
    else first_parsed_line parseFloat rest

/-- `_probe_keyframe_time(filepath, target)` from `routes/stream.py`, the
keyframe locator.  The external `ffprobe` invocation is abstracted as
`runProber`, returning the stdout lines; the second component of the
result counts how many times the prober process was spawned.  On no
parsable timestamp the originally requested `target` is returned. -/
def probe_keyframe_time (runProber : String → ℚ → List String)
    (parseFloat : String → Option ℚ) (filepath : String) (target : ℚ) :
    ℚ × ℕ :=
  if target ≤ 0 then (0, 0)
  else
    match first_parsed_line parseFloat (runProber filepath target) with
    | some v => (v, 1)
    | none => (target, 1)

/-- **C8**. For every file path and every requested time ≤ 0, the keyframe
locator returns 0 with zero prober invocations — in particular
`locate(path, 0) = 0` never spawns a process. -/
theorem probe_keyframe_time_nonpos (runProber : String → ℚ → List String)
    (parseFloat : String → Option ℚ) (filepath : String) (target : ℚ)
    (h : target ≤ 0) :
    probe_keyframe_time runProber parseFloat filepath target = (0, 0) := by
  unfold probe_keyframe_time
  rw [if_pos h]

/-- **C8** (witness). `locate(path, 0)` returns 0 with zero prober calls,
even for a prober that would return a parsable timestamp. -/
theorem probe_keyframe_time_nonpos_witness :
    probe_keyframe_time (fun _ _ => ["12.5"]) (fun _ => some (25 / 2))
      "movie.mkv" 0 = (0, 0) :=
  probe_keyframe_time_nonpos (fun _ _ => ["12.5"]) (fun _ => some (25 / 2))
    "movie.mkv" 0 (le_refl 0)

/-- `TEXT_SUBTITLE_CODECS` from `routes/stream.py`. -/
def TEXT_SUBTITLE_CODECS : List String :=
  ["subrip", "srt", "ass", "ssa", "webvtt", "mov_text",
   "sami", "microdvd", "subviewer", "text", "realtext",
   "stl", "jacosub", "ttml"]

/-- One ffprobe stream entry as read by `get_file_info`: `codec_type`,
`codec_name`, the `tags` dict's `title` and `language` entries (`none` =
key absent) and `channels`. -/
structure ProbeStream where
  codecType : String
  codecName : String
  tagTitle : Option String
  tagLanguage : Option String
  channels : ℤ
deriving DecidableEq, Repr

/-- Python's `str.lower()` on the character list (the codec names
involved are ASCII). -/
def str_toLower (s : String) : String :=
  ⟨s.data.map Char.toLower⟩

/-- Python's `a or b` for an optional string `a`: `None` and `""` are
falsy, so they fall through to `b`. -/
def pyOrStr (a : Option String) (b : String) : String :=
  match a with
  | none => b
  | some s => if s = "" then b else s

/-- An entry of the `audio_tracks` list of `get_file_info`. -/
structure AudioTrack where
  index : ℕ
  language : String
  title : String
  codec : String
  channels : ℤ
deriving DecidableEq, Repr

/-- An entry of the `subtitle_tracks` list of `get_file_info`. -/
structure SubtitleTrack where
  index : ℕ
  language : String
  title : String
  codec : String
deriving DecidableEq, Repr

/-- The stream loop of `get_file_info`: builds the audio and subtitle
track lists with the running counters `audio_index` and `subtitle_index`.
A subtitle stream whose lower-cased codec is not text-based is skipped
(`continue`) but still increments `subtitle_index`; the exposed `index`
field of a kept subtitle track is the value of `subtitle_index` at that
stream — the container-relative subtitle index. -/
def collect_tracks : List ProbeStream → ℕ → ℕ →
    List AudioTrack × List SubtitleTrack
  | [], _, _ => ([], [])
  | stream :: rest, audio_index, subtitle_index =>
    if stream.codecType = "audio" then
      let label := pyOrStr stream.tagTitle
        (pyOrStr stream.tagLanguage ("Track " ++ toString audio_index))
      let track : AudioTrack :=
        { index := audio_index, language := stream.tagLanguage.getD "und",
          title := label, codec := stream.codecName,
          channels := stream.channels }
      let (audio_tracks, subtitle_tracks) :=
        collect_tracks rest (audio_index + 1) subtitle_index
      (track :: audio_tracks, subtitle_tracks)
    else if stream.codecType = "subtitle" then
      let codec_name := str_toLower stream.codecName
      if ¬TEXT_SUBTITLE_CODECS.contains codec_name then
        collect_tracks rest audio_index (subtitle_index + 1)
      else
        let label := pyOrStr stream.tagTitle
          (pyOrStr stream.tagLanguage ("Track " ++ toString subtitle_index))
        let track : SubtitleTrack :=
          { index := subtitle_index, language := stream.tagLanguage.getD "und",
            title := label, codec := codec_name }
        let (audio_tracks, subtitle_tracks) :=
          collect_tracks rest audio_index (subtitle_index + 1)
        (audio_tracks, track :: subtitle_tracks)
    else
      collect_tracks rest audio_index subtitle_index

/-- The `audio_tracks`/`subtitle_tracks` part of `get_file_info`'s
response, starting both counters at 0. -/
def get_file_info_tracks (streams : List ProbeStream) :
    List AudioTrack × List SubtitleTrack :=
  collect_tracks streams 0 0

/-- **C2** (counterexample). A container with one image-based subtitle
stream (PGS) followed by one text-based subtitle stream (SubRip) exposes
exactly one subtitle track, but its exposed `index` field is `1` — the
container-relative subtitle index — not a re-numbered `0`. -/
theorem file_info_image_sub_index_not_zero :
    (get_file_info_tracks
        [⟨"subtitle", "hdmv_pgs_subtitle", none, none, 0⟩,
         ⟨"subtitle", "subrip", none, some "en", 0⟩]).2.map
        SubtitleTrack.index = [1] ∧
    ([1] : List ℕ) ≠ [0] := by
  exact ⟨by rfl, by decide⟩

/-- **C2** (amended). For every container holding exactly one image-based
subtitle stream followed by one text-based subtitle stream, the file-info
operation exposes exactly one subtitle track, and that track's exposed
`index` field is `1`: the original container-relative subtitle index (the
same index space the transcoder is invoked with), not an index re-numbered
over the exposed tracks. -/
theorem file_info_filters_image_subs (s1 s2 : ProbeStream)
    (hty1 : s1.codecType = "subtitle")
    (him : str_toLower s1.codecName ∉ TEXT_SUBTITLE_CODECS)
    (hty2 : s2.codecType = "subtitle")
    (htxt : str_toLower s2.codecName ∈ TEXT_SUBTITLE_CODECS) :
    (get_file_info_tracks [s1, s2]).2.map SubtitleTrack.index = [1] := by
  unfold get_file_info_tracks
  unfold collect_tracks
  rw [if_neg (by rw [hty1]; decide), if_pos hty1, if_pos (by simp [him])]
  unfold collect_tracks
  rw [if_neg (by rw [hty2]; decide), if_pos hty2, if_neg (by simp [htxt])]
  rfl

/-- **C2** (witness). The PGS + SubRip container from the counterexample
instantiates the amended claim. -/
theorem file_info_filters_image_subs_witness :
    (get_file_info_tracks
        [⟨"subtitle", "hdmv_pgs_subtitle", none, none, 0⟩,
         ⟨"subtitle", "subrip", none, some "en", 0⟩]).2.map
        SubtitleTrack.index = [1] :=
  file_info_filters_image_subs
    ⟨"subtitle", "hdmv_pgs_subtitle", none, none, 0⟩
    ⟨"subtitle", "subrip", none, some "en", 0⟩
    rfl (by decide) rfl (by decide)
